import Mathlib

/-!
Shallow embedding of `src/news_bot_free.py` (a Telegram news bot:
RSS ingestion → image extraction → dedup/spam/keyword filtering →
translation/summarization → publishing), together with theorems that
settle the specification claims about it.

Modelling conventions:
* Python `str` is Lean `String`; Python string primitives (`lower`,
  `split`, `strip`, `in`, `startswith`, `endswith`, slicing) are
  re-implemented below over `String.data : List Char`, matching CPython
  semantics on the relevant inputs.
* External collaborators (feedparser, BeautifulSoup, the translator,
  the Telegram client, the filesystem) are passed in as function
  parameters ("oracles"); a collaborator call that may raise is modelled
  with `Option`/`Except` (`none`/`.error` = raised).
* `hashlib.md5(...).hexdigest()` is embedded as a full executable MD5
  over UTF-8 bytes (`Nat` arithmetic mod 2^32).
-/

/-! ## Python string primitives -/

/-- Python `needle_list` is a prefix of `hay_list` (char lists). -/
def listStarts : List Char → List Char → Bool
  | [], _ => true
  | _ :: _, [] => false
  | p :: ps, c :: cs => p = c && listStarts ps cs

/-- Python substring test `needle in haystack` on char lists. -/
def listContains (needle : List Char) : List Char → Bool
  | [] => needle.isEmpty
  | c :: cs => listStarts needle (c :: cs) || listContains needle cs

/-- Python `haystack.startswith(p)`. -/
def pyStartsWith (p s : String) : Bool := listStarts p.data s.data

/-- Python `needle in haystack` (substring containment). -/
def pyContains (needle haystack : String) : Bool := listContains needle.data haystack.data

/-- Python `s.endswith(suf)`. -/
def pyEndsWith (suf s : String) : Bool := listStarts suf.data.reverse s.data.reverse

/-- Python `s.lower()` (ASCII case folding, enough for the texts involved). -/
def pyLower (s : String) : String := ⟨s.data.map Char.toLower⟩

/-- Python `s[:n]` for a nonnegative `n`. -/
def pyTake (n : Nat) (s : String) : String := ⟨s.data.take n⟩

/-- The characters Python `str.strip()` removes. -/
def isPySpace (c : Char) : Bool :=
  c = ' ' || c = '\t' || c = '\n' || c = '\r' || c = '\x0b' || c = '\x0c'

/-- Python `s.strip()`. -/
def pyStrip (s : String) : String :=
  ⟨((s.data.dropWhile isPySpace).reverse.dropWhile isPySpace).reverse⟩

/-- Python `s.split('.')` on char lists: always returns at least one group. -/
def pySplitDot : List Char → List (List Char)
  | [] => [[]]
  | c :: rest =>
    if c = '.' then [] :: pySplitDot rest
    else
      match pySplitDot rest with
      | [] => [[c]]
      | g :: gs => (c :: g) :: gs

/-- Python `sep.join(parts)`. -/
def joinWith (sep : String) : List String → String
  | [] => ""
  | [s] => s
  | s :: rest => s ++ sep ++ joinWith sep rest

/-! ## MD5 (embedding of `hashlib.md5(...).hexdigest()` over UTF-8 bytes) -/

/-- UTF-8 encoding of one character (Python `str.encode()` per char). -/
def utf8Encode (c : Char) : List Nat :=
  let n := c.toNat
  if n < 128 then [n]
  else if n < 2048 then [192 ||| (n >>> 6), 128 ||| (n &&& 63)]
  else if n < 65536 then
    [224 ||| (n >>> 12), 128 ||| ((n >>> 6) &&& 63), 128 ||| (n &&& 63)]
  else
    [240 ||| (n >>> 18), 128 ||| ((n >>> 12) &&& 63),
     128 ||| ((n >>> 6) &&& 63), 128 ||| (n &&& 63)]

/-- Python `s.encode()`: UTF-8 bytes of a string. -/
def strBytes (s : String) : List Nat := (s.data.map utf8Encode).flatten

def mask32 : Nat := 4294967296

/-- 32-bit complement (arguments are kept `< 2^32`). -/
def not32 (x : Nat) : Nat := 4294967295 - x

/-- 32-bit left rotation. -/
def rotl32 (x c : Nat) : Nat := ((x <<< c) ||| (x >>> (32 - c))) % mask32

/-- MD5 sine-derived constant table (RFC 1321). -/
def md5K : List Nat :=
  [0xd76aa478, 0xe8c7b756, 0x242070db, 0xc1bdceee,
   0xf57c0faf, 0x4787c62a, 0xa8304613, 0xfd469501,
   0x698098d8, 0x8b44f7af, 0xffff5bb1, 0x895cd7be,
   0x6b901122, 0xfd987193, 0xa679438e, 0x49b40821,
   0xf61e2562, 0xc040b340, 0x265e5a51, 0xe9b6c7aa,
   0xd62f105d, 0x02441453, 0xd8a1e681, 0xe7d3fbc8,
   0x21e1cde6, 0xc33707d6, 0xf4d50d87, 0x455a14ed,
   0xa9e3e905, 0xfcefa3f8, 0x676f02d9, 0x8d2a4c8a,
   0xfffa3942, 0x8771f681, 0x6d9d6122, 0xfde5380c,
   0xa4beea44, 0x4bdecfa9, 0xf6bb4b60, 0xbebfbc70,
   0x289b7ec6, 0xeaa127fa, 0xd4ef3085, 0x04881d05,
   0xd9d4d039, 0xe6db99e5, 0x1fa27cf8, 0xc4ac5665,
   0xf4292244, 0x432aff97, 0xab9423a7, 0xfc93a039,
   0x655b59c3, 0x8f0ccc92, 0xffeff47d, 0x85845dd1,
   0x6fa87e4f, 0xfe2ce6e0, 0xa3014314, 0x4e0811a1,
   0xf7537e82, 0xbd3af235, 0x2ad7d2bb, 0xeb86d391]

/-- MD5 per-round shift amounts (RFC 1321). -/
def md5S : List Nat :=
  [7, 12, 17, 22, 7, 12, 17, 22, 7, 12, 17, 22, 7, 12, 17, 22,
   5, 9, 14, 20, 5, 9, 14, 20, 5, 9, 14, 20, 5, 9, 14, 20,
   4, 11, 16, 23, 4, 11, 16, 23, 4, 11, 16, 23, 4, 11, 16, 23,
   6, 10, 15, 21, 6, 10, 15, 21, 6, 10, 15, 21, 6, 10, 15, 21]

/-- Little-endian byte expansion, fixed width. -/
def toLEBytes : Nat → Nat → List Nat
  | 0, _ => []
  | n + 1, x => (x % 256) :: toLEBytes n (x / 256)

/-- Little-endian byte composition. -/
def fromLEBytes : List Nat → Nat
  | [] => 0
  | b :: rest => b + 256 * fromLEBytes rest

/-- MD5 message padding: `0x80`, zeros to 56 mod 64, 64-bit LE bit length. -/
def md5pad (msg : List Nat) : List Nat :=
  let bitLen := (8 * msg.length) % 18446744073709551616
  let padded := msg ++ [128]
  let zeros := (64 + 56 - padded.length % 64) % 64
  padded ++ List.replicate zeros 0 ++ toLEBytes 8 bitLen

/-- Split a byte list into 64-byte chunks (fuel-driven, fuel ≥ chunk count). -/
def chunk64 : Nat → List Nat → List (List Nat)
  | 0, _ => []
  | _, [] => []
  | fuel + 1, l => l.take 64 :: chunk64 fuel (l.drop 64)

/-- The 16 little-endian 32-bit words of a 64-byte chunk. -/
def words16 (chunk : List Nat) : List Nat :=
  (List.range 16).map (fun j => fromLEBytes ((chunk.drop (4 * j)).take 4))

/-- One of the 64 MD5 rounds on state `(a, b, c, d)`. -/
def md5step (M : List Nat) (st : Nat × Nat × Nat × Nat) (i : Nat) : Nat × Nat × Nat × Nat :=
  let (a, b, c, d) := st
  let fg : Nat × Nat :=
    if i < 16 then ((b &&& c) ||| (not32 b &&& d), i)
    else if i < 32 then ((d &&& b) ||| (not32 d &&& c), (5 * i + 1) % 16)
    else if i < 48 then (b ^^^ c ^^^ d, (3 * i + 5) % 16)
    else (c ^^^ (b ||| not32 d), (7 * i) % 16)
  let f := (fg.1 + a + md5K.getD i 0 + M.getD fg.2 0) % mask32
  (d, (b + rotl32 f (md5S.getD i 0)) % mask32, b, c)

/-- Process one 64-byte chunk. -/
def md5chunk (st : Nat × Nat × Nat × Nat) (chunk : List Nat) : Nat × Nat × Nat × Nat :=
  let M := words16 chunk
  let r := (List.range 64).foldl (md5step M) st
  ((st.1 + r.1) % mask32, (st.2.1 + r.2.1) % mask32,
   (st.2.2.1 + r.2.2.1) % mask32, (st.2.2.2 + r.2.2.2) % mask32)

/-- MD5 digest bytes of a byte message. -/
def md5bytes (msg : List Nat) : List Nat :=
  let padded := md5pad msg
  let r := (chunk64 padded.length padded).foldl md5chunk
    (0x67452301, 0xefcdab89, 0x98badcfe, 0x10325476)
  toLEBytes 4 r.1 ++ toLEBytes 4 r.2.1 ++ toLEBytes 4 r.2.2.1 ++ toLEBytes 4 r.2.2.2

/-- Lowercase hex digit. -/
def hexDigitChar (n : Nat) : Char :=
  if n < 10 then Char.ofNat (48 + n) else Char.ofNat (87 + n)

/-- Lowercase hex string of a byte list. -/
def bytesToHex (l : List Nat) : String :=
  ⟨l.foldr (fun b acc => hexDigitChar (b / 16) :: hexDigitChar (b % 16) :: acc) []⟩

/-- `hashlib.md5(s.encode()).hexdigest()`. -/
def md5hex (s : String) : String := bytesToHex (md5bytes (strBytes s))

/-! ## Data model -/

/-- One raw feed item, as built by `NewsParser.parse_rss` (a Python dict with
keys `title`, `link`, `description`, `published`, `image_url`, `source`). -/
structure RawItem where
  title : String
  link : String
  description : String
  published : String
  image_url : Option String
  source : String
deriving DecidableEq

/-- The processed post dict returned by `FreeNewsProcessor.process_news`. -/
structure ProcessedPost where
  title : String
  text : String
  link : String
  image_url : Option String
  hashtags : List String
  source : String
deriving DecidableEq

/-- Contents of the `published_news.json` state file, at the granularity the
code observes it: absent, unreadable/corrupt, or a decoded `hashes` list.
(`json.dump`/`json.load` are stdlib collaborators assumed faithful.) -/
inductive FileState where
  | absent
  | corrupt
  | stored (hashes : List String)
deriving DecidableEq

/-! ## NewsFilter -/

/-- `NewsFilter.SPAM_KEYWORDS`. -/
def SPAM_KEYWORDS : List String :=
  ["clasificados", "anuncio", "publicidad", "sorteo",
   "oferta laboral", "se busca", "se alquila", "se vende"]

/-- `NewsFilter._load_published`: absent file or any load error yields the
empty set; otherwise the decoded `hashes` list. -/
def _load_published : FileState → List String
  | .absent => []
  | .corrupt => []
  | .stored hashes => hashes

/-- `NewsFilter._save_published`: the `try` body rewrites the file with the
current hashes; the `except` swallows a write error (here modelled as the
file keeping its previous contents) and the method still returns normally. -/
def _save_published (writeOk : Bool) (published_hashes : List String) (f : FileState) : FileState :=
  if writeOk then .stored published_hashes else f

/-- `NewsFilter.get_news_hash`: `hashlib.md5(f"{title}{link}".encode()).hexdigest()`. -/
def get_news_hash (news : RawItem) : String :=
  md5hex (news.title ++ news.link)

/-- `NewsFilter.is_duplicate`: fingerprint membership in the published set
(the set is modelled as a list; only membership is ever observed). -/
def is_duplicate (published_hashes : List String) (news : RawItem) : Bool :=
  published_hashes.contains (get_news_hash news)

/-- The lowercased `f"{news['title']} {news['description']}"` both
`is_spam` and `filter_news` build. -/
def newsText (news : RawItem) : String :=
  pyLower (news.title ++ " " ++ news.description)

/-- `NewsFilter.is_spam`: any spam keyword occurs in the lowercased text. -/
def is_spam (news : RawItem) : Bool :=
  SPAM_KEYWORDS.any (fun spam_word => pyContains spam_word (newsText news))

/-- Python `set.add`: insert without duplicating. -/
def setAdd (s : List String) (x : String) : List String :=
  if s.contains x then s else s ++ [x]

/-- `NewsFilter.mark_as_published`: add the fingerprint to the in-memory set,
then synchronously persist (write errors swallowed inside `_save_published`).
Returns the new in-memory set and the new file state. -/
def mark_as_published (writeOk : Bool) (published_hashes : List String)
    (f : FileState) (news : RawItem) : List String × FileState :=
  let news_hash := get_news_hash news
  let published_hashes := setAdd published_hashes news_hash
  (published_hashes, _save_published writeOk published_hashes f)

/-- The keyword relevance test inlined in `NewsFilter.filter_news`. -/
def keywordMatch (keywords : List String) (news : RawItem) : Bool :=
  keywords.any (fun keyword => pyContains (pyLower keyword) (newsText news))

/-- `NewsFilter.filter_news`: drop duplicates, then spam, then keep only
keyword-relevant items, preserving input order. -/
def filter_news (published_hashes : List String) (news_list : List RawItem)
    (keywords : List String) : List RawItem :=
  match news_list with
  | [] => []
  | news :: rest =>
    if is_duplicate published_hashes news then
      filter_news published_hashes rest keywords
    else if is_spam news then
      filter_news published_hashes rest keywords
    else if keywordMatch keywords news then
      news :: filter_news published_hashes rest keywords
    else
      filter_news published_hashes rest keywords

/-! ## NewsParser -/

/-- One element of feedparser's `entry.media_content` / `media_thumbnail`. -/
structure MediaItem where
  type : Option String
  url : Option String
deriving DecidableEq

/-- One element of feedparser's `entry.enclosures`. -/
structure Enclosure where
  type : Option String
  href : Option String
deriving DecidableEq

/-- One element of feedparser's `entry.content`. -/
structure ContentItem where
  value : Option String
deriving DecidableEq

/-- A feed entry as observed by the code. A `none` field models the
attribute/key being absent (`hasattr` false / `.get` default taken). -/
structure FeedEntry where
  title : Option String
  link : Option String
  summary : Option String
  description : Option String
  published : Option String
  media_content : Option (List MediaItem)
  media_thumbnail : Option (List MediaItem)
  enclosures : Option (List Enclosure)
  content : Option (List ContentItem)
deriving DecidableEq

/-- A parsed feed: `feed.feed.get('title', ...)` plus `feed.entries`. -/
structure Feed where
  title : Option String
  entries : List FeedEntry
deriving DecidableEq

/-- The `<img>` tag BeautifulSoup's `soup.find('img')` returns, restricted to
the three attributes the code reads. -/
structure ImgTag where
  src : Option String
  data_src : Option String
  data_lazy_src : Option String
deriving DecidableEq

/-- Split a char list at the first occurrence of `://` (accumulator holds the
reversed part already scanned). -/
def splitSchemeAux : List Char → List Char → Option (List Char × List Char)
  | acc, ':' :: '/' :: '/' :: rest => some (acc.reverse, rest)
  | acc, c :: rest => splitSchemeAux (c :: acc) rest
  | _, [] => none

/-- Modelled from `urllib.parse.urlparse(u).scheme` for absolute
`scheme://host/path` URLs (the only shape feed URLs take here):
the text before the first `://`, else `""`. -/
def urlparse_scheme (u : String) : String :=
  match splitSchemeAux [] u.data with
  | some (s, _) => ⟨s⟩
  | none => ""

/-- Modelled from `urllib.parse.urlparse(u).netloc` for absolute URLs:
the text between the first `://` and the next `/`, `?` or `#`, else `""`. -/
def urlparse_netloc (u : String) : String :=
  match splitSchemeAux [] u.data with
  | some (_, rest) => ⟨rest.takeWhile (fun c => !(c = '/' || c = '?' || c = '#'))⟩
  | none => ""

/-- The image extensions tested in methods 1 and 3:
`('.jpg', '.jpeg', '.png', '.webp')`. -/
def imageExts : List String := [".jpg", ".jpeg", ".png", ".webp"]

/-- The shared media test: `'image' in x.get('type','') or
x.get(urlkey,'').lower().endswith(imageExts)`. -/
def isImageMedia (type url : Option String) : Bool :=
  pyContains "image" (type.getD "") ||
    imageExts.any (fun e => pyEndsWith e (pyLower (url.getD "")))

/-- Method 1 loop body of `_extract_image`: first media item that passes the
image test and has a truthy `url`. -/
def findMediaImage : List MediaItem → Option String
  | [] => none
  | m :: rest =>
    if isImageMedia m.type m.url then
      match m.url with
      | some url => if url == "" then findMediaImage rest else some url
      | none => findMediaImage rest
    else findMediaImage rest

/-- Method 3 loop body of `_extract_image`: same shape over enclosures,
reading `type`/`href`. -/
def findEnclosureImage : List Enclosure → Option String
  | [] => none
  | e :: rest =>
    if isImageMedia e.type e.href then
      match e.href with
      | some url => if url == "" then findEnclosureImage rest else some url
      | none => findEnclosureImage rest
    else findEnclosureImage rest

/-- The attribute loop of method 4: `for attr in ['src', 'data-src',
'data-lazy-src']: url = img.get(attr); if url: ...` — first truthy value. -/
def firstTruthy : List (Option String) → Option String
  | [] => none
  | some u :: rest => if u == "" then firstTruthy rest else some u
  | none :: rest => firstTruthy rest

/-- Method 4 URL normalization: protocol-relative URLs get the literal
scheme `https:`; root-relative URLs get the feed URL's scheme and netloc. -/
def absolutize (feed_url url : String) : String :=
  if pyStartsWith "//" url then "https:" ++ url
  else if pyStartsWith "/" url then
    urlparse_scheme feed_url ++ "://" ++ urlparse_netloc feed_url ++ url
  else url

/-- Method 1: `media_content`. -/
def extractMethod1 (entry : FeedEntry) : Option String :=
  match entry.media_content with
  | some medias => findMediaImage medias
  | none => none

/-- Method 2: `media_thumbnail[0].get('url')` — indexing `[0]` raises
`IndexError` on an empty list (propagating into `parse_rss`'s `try`). -/
def extractMethod2 (entry : FeedEntry) : Except Unit (Option String) :=
  match entry.media_thumbnail with
  | none => .ok none
  | some [] => .error ()
  | some (t :: _) =>
    .ok (match t.url with
         | some url => if url == "" then none else some url
         | none => none)

/-- Method 3: `enclosures`. -/
def extractMethod3 (entry : FeedEntry) : Option String :=
  match entry.enclosures with
  | some encls => findEnclosureImage encls
  | none => none

/-- Method 4: first `<img>` inside the description markup (`findImg` models
`BeautifulSoup(html).find('img')`), with URL normalization. -/
def extractMethod4 (findImg : String → Option ImgTag) (entry : FeedEntry)
    (feed_url : String) : Option String :=
  if entry.summary.isSome || entry.description.isSome then
    let html_content := entry.summary.getD (entry.description.getD "")
    match findImg html_content with
    | some img =>
      match firstTruthy [img.src, img.data_src, img.data_lazy_src] with
      | some url => some (absolutize feed_url url)
      | none => none
    | none => none
  else none

/-- Method 5 loop: first content item whose markup holds an `<img>` with a
truthy `src`; only protocol-relative normalization is applied here. -/
def findContentImage (findImg : String → Option ImgTag) : List ContentItem → Option String
  | [] => none
  | ci :: rest =>
    match findImg (ci.value.getD "") with
    | some img =>
      match img.src with
      | some url =>
        if url == "" then findContentImage findImg rest
        else some (if pyStartsWith "//" url then "https:" ++ url else url)
      | none => findContentImage findImg rest
    | none => findContentImage findImg rest

/-- Method 5: `content` (WordPress `content:encoded`). -/
def extractMethod5 (findImg : String → Option ImgTag) (entry : FeedEntry) : Option String :=
  match entry.content with
  | some cs => findContentImage findImg cs
  | none => none

/-- `NewsParser._extract_image`: the six strategies in order, first success
wins. `fetch_article` models `_fetch_image_from_article` (its network access
and HTML inspection sit behind its own `try`, so it is total); the
unconditional `return` into it makes the trailing `return None` dead code. -/
def _extract_image (findImg : String → Option ImgTag)
    (fetch_article : Option String → Option String)
    (entry : FeedEntry) (feed_url : String) : Except Unit (Option String) := do
  if let some url := extractMethod1 entry then
    return some url
  if let some url := ← extractMethod2 entry then
    return some url
  if let some url := extractMethod3 entry then
    return some url
  if let some url := extractMethod4 findImg entry feed_url then
    return some url
  if let some url := extractMethod5 findImg entry then
    return some url
  return fetch_article entry.link

/-- Build one `RawItem` from a feed entry, as the dict literal in
`parse_rss` does (missing fields default to `''`; missing feed title
defaults to the literal in the source). -/
def entryToItem (findImg : String → Option ImgTag)
    (fetch_article : Option String → Option String)
    (feed : Feed) (url : String) (entry : FeedEntry) : Except Unit RawItem := do
  let image_url ← _extract_image findImg fetch_article entry url
  return { title := entry.title.getD ""
           link := entry.link.getD ""
           description := entry.summary.getD (entry.description.getD "")
           published := entry.published.getD ""
           image_url := image_url
           source := feed.title.getD "Неизвестный источник" }

/-- The `for entry in feed.entries[:10]` loop: builds items left to right,
any raised error aborting the whole loop. -/
def buildItems (f : FeedEntry → Except Unit RawItem) : List FeedEntry → Except Unit (List RawItem)
  | [] => .ok []
  | e :: rest =>
    match f e with
    | .error u => .error u
    | .ok item =>
      match buildItems f rest with
      | .error u => .error u
      | .ok items => .ok (item :: items)

/-- `NewsParser.parse_rss`: `feedparse` models `feedparser.parse` (`none` =
the call raised, e.g. network failure or timeout); any exception inside the
`try` (including `IndexError` from method 2) yields `[]`. -/
def parse_rss (feedparse : String → Option Feed) (findImg : String → Option ImgTag)
    (fetch_article : Option String → Option String) (url : String) : List RawItem :=
  match feedparse url with
  | none => []
  | some feed =>
    match buildItems (entryToItem findImg fetch_article feed url) (feed.entries.take 10) with
    | .ok news_items => news_items
    | .error _ => []

/-- `NewsParser.fetch_all_news`: order-preserving concatenation of the
per-source results. -/
def fetch_all_news (feedparse : String → Option Feed) (findImg : String → Option ImgTag)
    (fetch_article : Option String → Option String) : List String → List RawItem
  | [] => []
  | source :: rest =>
    parse_rss feedparse findImg fetch_article source ++
      fetch_all_news feedparse findImg fetch_article rest

/-! ## FreeNewsProcessor -/

/-- `FreeNewsProcessor.translate_text`: truncate to 5000 characters, then call
the translation collaborator (`translator`, modelling
`GoogleTranslator.translate`; `none` = the call raised); on failure return
the (possibly truncated) input unchanged. -/
def translate_text (translator : String → Option String) (text : String) : String :=
  let text := if text.length > 5000 then pyTake 5000 text else text
  match translator text with
  | some translated => translated
  | none => text

/-- `FreeNewsProcessor.shorten_text`: normalize `!` and `?` to `.`, split on
`.`, strip and drop empty sentences, keep the first `max_sentences`, join
with `'. '`, and append a final `.` if the result is nonempty and lacks one. -/
def shorten_text (text : String) (max_sentences : Nat) : String :=
  let sentences := pySplitDot (text.data.map (fun c =>
    if c = '!' then '.' else if c = '?' then '.' else c))
  let sentences := ((sentences.map (fun s => pyStrip ⟨s⟩)).filter (fun s => s ≠ ""))
  let short_text := joinWith ". " (sentences.take max_sentences)
  if short_text ≠ "" && !pyEndsWith "." short_text then short_text ++ "." else short_text

/-- `FreeNewsProcessor.generate_hashtags`: the per-city override table, else
`[#<city>, #Испания]`. -/
def generate_hashtags (city_name : String) : List String :=
  let hashtags := ["#" ++ city_name, "#Испания"]
  let city_tags : List (String × List String) :=
    [("Аликанте", ["#КостаБланка", "#Аликанте"]),
     ("Валенсия", ["#Валенсия", "#КомунидадВаленсиана"]),
     ("Барселона", ["#Барселона", "#Каталония"])]
  match city_tags.find? (fun p => p.1 == city_name) with
  | some p => p.2
  | none => hashtags

/-- `FreeNewsProcessor.process_news`: clean the description markup
(`clean_html` models `BeautifulSoup(...).get_text(separator=' ',
strip=True)`, a total collaborator), translate title and description,
shorten to 3 sentences, and reject (return `none`) when the short
description has fewer than 20 characters. -/
def process_news (clean_html : String → String) (translator : String → Option String)
    (news : RawItem) (city_name : String) : Option ProcessedPost :=
  let clean_description := clean_html news.description
  let translated_title := translate_text translator news.title
  let translated_desc := translate_text translator clean_description
  let short_desc := shorten_text translated_desc 3
  let hashtags := generate_hashtags city_name
  if short_desc.length < 20 then none
  else some { title := translated_title
              text := short_desc
              link := news.link
              image_url := news.image_url
              hashtags := hashtags
              source := news.source }

/-! ## TelegramPublisher -/

/-- An apostrophe, used inside the rendered payload. -/
def apos : String := ⟨[Char.ofNat 39]⟩

/-- Python truthiness of an optional string (`None` and `''` are falsy). -/
def optTruthy : Option String → Bool
  | some s => s ≠ ""
  | none => false

/-- The payload rendered at the top of `TelegramPublisher.publish_news`:
bold title, text, hashtags (when truthy), and the read-more link. -/
def renderText (news : ProcessedPost) : String :=
  let text := "<b>" ++ news.title ++ "</b>\n\n"
  let text := text ++ news.text ++ "\n\n"
  let text := if news.hashtags.isEmpty then text
    else text ++ joinWith " " news.hashtags ++ "\n\n"
  text ++ "📰 <a href=" ++ apos ++ news.link ++ apos ++ ">Читать полностью</a>"

/-- One observable call on the Telegram collaborator. -/
inductive SendAttempt where
  | photo (chat : String) (photoUrl : String) (caption : String)
  | message (chat : String) (text : String)
deriving DecidableEq

/-- `TelegramPublisher.publish_news`. `sendPhoto`/`sendMessage` model
`bot.send_photo`/`bot.send_message` (result `false` = the call raised).
A raised photo send falls through to one text-only send of the same payload
(inner `except`); a raised text send reaches the outer `except`, which
returns `False`. Returns the success flag and the list of collaborator
calls attempted, in order. -/
def publish_news (sendPhoto : String → String → String → Bool)
    (sendMessage : String → String → Bool)
    (channel_id : String) (news : ProcessedPost) : Bool × List SendAttempt :=
  let text := renderText news
  if optTruthy news.image_url then
    let photo := news.image_url.getD ""
    if sendPhoto channel_id photo text then
      (true, [SendAttempt.photo channel_id photo text])
    else
      (sendMessage channel_id text,
       [SendAttempt.photo channel_id photo text, SendAttempt.message channel_id text])
  else
    (sendMessage channel_id text, [SendAttempt.message channel_id text])

/-! ## NewsBot (pipeline orchestrator) -/

/-- One entry of `NewsConfig.CITIES`. -/
structure CityConfig where
  name : String
  channel_id : String
  sources : List String
  keywords : List String
deriving DecidableEq

/-- The `for news in filtered_news[:5]` loop body of
`NewsBot.process_city_news`: summarize, publish on success, and mark
published (persisting) only when publishing succeeded. Returns the items
actually published (in order) and the final filter state. The
`asyncio.sleep` pauses carry no state and are dropped. -/
def publishLoop (proc : RawItem → Option ProcessedPost) (pub : ProcessedPost → Bool)
    (writeOk : Bool) : List RawItem → List String → FileState →
    List RawItem × List String × FileState
  | [], h, f => ([], h, f)
  | news :: rest, h, f =>
    match proc news with
    | none => publishLoop proc pub writeOk rest h f
    | some p =>
      if pub p then
        let m := mark_as_published writeOk h f news
        let r := publishLoop proc pub writeOk rest m.1 m.2
        (news :: r.1, r.2)
      else
        publishLoop proc pub writeOk rest h f

/-- `NewsBot.process_city_news` for one city: fetch all sources, filter
against the current published set, then run the publish loop over the first
five surviving items. -/
def process_city_news (feedparse : String → Option Feed) (findImg : String → Option ImgTag)
    (fetch_article : Option String → Option String) (clean_html : String → String)
    (translator : String → Option String) (sendPhoto : String → String → String → Bool)
    (sendMessage : String → String → Bool) (writeOk : Bool) (city : CityConfig)
    (published_hashes : List String) (f : FileState) :
    List RawItem × List String × FileState :=
  let raw_news := fetch_all_news feedparse findImg fetch_article city.sources
  let filtered_news := filter_news published_hashes raw_news city.keywords
  publishLoop (fun news => process_news clean_html translator news city.name)
    (fun p => (publish_news sendPhoto sendMessage city.channel_id p).1)
    writeOk (filtered_news.take 5) published_hashes f

/-- A sequence of later `mark_as_published` calls in the same process
lifetime, each with its own write outcome. -/
def markMany : List String × FileState → List (Bool × RawItem) → List String × FileState
  | hf, [] => hf
  | hf, (w, n) :: rest => markMany (mark_as_published w hf.1 hf.2 n) rest

/-! ## Helper lemmas -/

theorem setAdd_contains_self (s : List String) (x : String) :
    (setAdd s x).contains x = true := by
  unfold setAdd
  split
  · assumption
  · simp

theorem setAdd_contains_mono (s : List String) (x y : String) (h : s.contains y = true) :
    (setAdd s x).contains y = true := by
  unfold setAdd
  split
  · exact h
  · simp at h ⊢
    exact Or.inl h

theorem mark_contains_self (w : Bool) (h : List String) (f : FileState) (news : RawItem) :
    (mark_as_published w h f news).1.contains (get_news_hash news) = true :=
  setAdd_contains_self h (get_news_hash news)

theorem mark_contains_mono (w : Bool) (h : List String) (f : FileState) (news : RawItem)
    (x : String) (hx : h.contains x = true) :
    (mark_as_published w h f news).1.contains x = true :=
  setAdd_contains_mono h (get_news_hash news) x hx

theorem markMany_contains_mono (x : String) :
    ∀ (more : List (Bool × RawItem)) (hf : List String × FileState),
      hf.1.contains x = true → (markMany hf more).1.contains x = true := by
  intro more
  induction more with
  | nil => intro hf hx; exact hx
  | cons p rest ih =>
    intro hf hx
    obtain ⟨w, n⟩ := p
    exact ih _ (mark_contains_mono w hf.1 hf.2 n x hx)

theorem filter_news_eq_filter (h : List String) (l : List RawItem) (kws : List String) :
    filter_news h l kws =
      l.filter (fun news => !is_duplicate h news && !is_spam news && keywordMatch kws news) := by
  induction l with
  | nil => rfl
  | cons news rest ih =>
    simp only [filter_news, List.filter_cons]
    cases hd : is_duplicate h news with
    | true => simp [hd, ih]
    | false =>
      cases hs : is_spam news with
      | true => simp [hd, hs, ih]
      | false =>
        cases hk : keywordMatch kws news with
        | true => simp [hd, hs, hk, ih]
        | false => simp [hd, hs, hk, ih]

theorem mem_filter_news (h : List String) (l kws) (x : RawItem)
    (hx : x ∈ filter_news h l kws) :
    x ∈ l ∧ is_duplicate h x = false ∧ is_spam x = false ∧ keywordMatch kws x = true := by
  rw [filter_news_eq_filter] at hx
  obtain ⟨hmem, hp⟩ := List.mem_filter.mp hx
  simp only [Bool.and_eq_true, Bool.not_eq_true'] at hp
  exact ⟨hmem, hp.1.1, hp.1.2, hp.2⟩

theorem publishLoop_cons_none (proc : RawItem → Option ProcessedPost) (pub w n rest h f)
    (hp : proc n = none) :
    publishLoop proc pub w (n :: rest) h f = publishLoop proc pub w rest h f := by
  simp [publishLoop, hp]

theorem publishLoop_cons_some_true (proc : RawItem → Option ProcessedPost) (pub w n rest h f p)
    (hp : proc n = some p) (hb : pub p = true) :
    publishLoop proc pub w (n :: rest) h f =
      ((n :: (publishLoop proc pub w rest (mark_as_published w h f n).1
          (mark_as_published w h f n).2).1),
       (publishLoop proc pub w rest (mark_as_published w h f n).1
          (mark_as_published w h f n).2).2) := by
  simp [publishLoop, hp, hb]

theorem publishLoop_cons_some_false (proc : RawItem → Option ProcessedPost) (pub w n rest h f p)
    (hp : proc n = some p) (hb : pub p = false) :
    publishLoop proc pub w (n :: rest) h f = publishLoop proc pub w rest h f := by
  simp [publishLoop, hp, hb]

theorem publishLoop_trace_subset (proc : RawItem → Option ProcessedPost) (pub w) :
    ∀ (l : List RawItem) (h : List String) (f : FileState) (x : RawItem),
      x ∈ (publishLoop proc pub w l h f).1 → x ∈ l := by
  intro l
  induction l with
  | nil => intro h f x hx; simp [publishLoop] at hx
  | cons n rest ih =>
    intro h f x hx
    cases hp : proc n with
    | none =>
      rw [publishLoop_cons_none proc pub w n rest h f hp] at hx
      exact List.mem_cons_of_mem _ (ih _ _ _ hx)
    | some p =>
      cases hb : pub p with
      | false =>
        rw [publishLoop_cons_some_false proc pub w n rest h f p hp hb] at hx
        exact List.mem_cons_of_mem _ (ih _ _ _ hx)
      | true =>
        rw [publishLoop_cons_some_true proc pub w n rest h f p hp hb] at hx
        rcases List.mem_cons.mp hx with rfl | hx'
        · exact List.mem_cons_self _ _
        · exact List.mem_cons_of_mem _ (ih _ _ _ hx')

theorem publishLoop_trace_proc_isSome (proc : RawItem → Option ProcessedPost) (pub w) :
    ∀ (l : List RawItem) (h : List String) (f : FileState) (x : RawItem),
      x ∈ (publishLoop proc pub w l h f).1 → (proc x).isSome = true := by
  intro l
  induction l with
  | nil => intro h f x hx; simp [publishLoop] at hx
  | cons n rest ih =>
    intro h f x hx
    cases hp : proc n with
    | none =>
      rw [publishLoop_cons_none proc pub w n rest h f hp] at hx
      exact ih _ _ _ hx
    | some p =>
      cases hb : pub p with
      | false =>
        rw [publishLoop_cons_some_false proc pub w n rest h f p hp hb] at hx
        exact ih _ _ _ hx
      | true =>
        rw [publishLoop_cons_some_true proc pub w n rest h f p hp hb] at hx
        rcases List.mem_cons.mp hx with rfl | hx'
        · simp [hp]
        · exact ih _ _ _ hx'

theorem buildItems_ok_length (g : FeedEntry → Except Unit RawItem) :
    ∀ (es : List FeedEntry) (items : List RawItem),
      buildItems g es = .ok items → items.length = es.length := by
  intro es
  induction es with
  | nil =>
    intro items hok
    simp only [buildItems] at hok
    cases hok
    rfl
  | cons e rest ih =>
    intro items hok
    simp only [buildItems] at hok
    cases hge : g e with
    | error u => rw [hge] at hok; cases hok
    | ok item =>
      rw [hge] at hok
      cases hbr : buildItems g rest with
      | error u => rw [hbr] at hok; cases hok
      | ok items' =>
        rw [hbr] at hok
        cases hok
        simp [ih items' hbr]

theorem buildItems_ok_get (g : FeedEntry → Except Unit RawItem) :
    ∀ (es : List FeedEntry) (items : List RawItem),
      buildItems g es = .ok items →
      ∀ (i : Nat) (it : RawItem), items[i]? = some it →
        ∃ e, es[i]? = some e ∧ g e = .ok it := by
  intro es
  induction es with
  | nil =>
    intro items hok i it hit
    simp only [buildItems] at hok
    cases hok
    simp at hit
  | cons e rest ih =>
    intro items hok i it hit
    simp only [buildItems] at hok
    cases hge : g e with
    | error u => rw [hge] at hok; cases hok
    | ok item =>
      rw [hge] at hok
      cases hbr : buildItems g rest with
      | error u => rw [hbr] at hok; cases hok
      | ok items' =>
        rw [hbr] at hok
        cases hok
        cases i with
        | zero =>
          rw [List.getElem?_cons_zero] at hit
          cases hit
          exact ⟨e, List.getElem?_cons_zero, hge⟩
        | succ j =>
          rw [List.getElem?_cons_succ] at hit
          obtain ⟨e', he', hge'⟩ := ih items' hbr j it hit
          exact ⟨e', by rw [List.getElem?_cons_succ]; exact he', hge'⟩

theorem entryToItem_ok (findImg : String → Option ImgTag)
    (fetch_article : Option String → Option String) (feed : Feed) (url : String)
    (entry : FeedEntry) (it : RawItem)
    (h : entryToItem findImg fetch_article feed url entry = .ok it) :
    ∃ img, _extract_image findImg fetch_article entry url = .ok img ∧
      it = { title := entry.title.getD ""
             link := entry.link.getD ""
             description := entry.summary.getD (entry.description.getD "")
             published := entry.published.getD ""
             image_url := img
             source := feed.title.getD "Неизвестный источник" } := by
  unfold entryToItem at h
  cases hx : _extract_image findImg fetch_article entry url with
  | error u => rw [hx] at h; simp [Bind.bind, Except.bind] at h
  | ok img =>
    rw [hx] at h
    simp only [Bind.bind, Except.bind, pure, Except.pure, Except.ok.injEq] at h
    exact ⟨img, rfl, h.symm⟩

theorem parse_rss_some_length (feedparse : String → Option Feed)
    (findImg : String → Option ImgTag) (fetch_article : Option String → Option String)
    (url : String) (feed : Feed) (hf : feedparse url = some feed) :
    (parse_rss feedparse findImg fetch_article url).length ≤ 10 := by
  simp only [parse_rss, hf]
  cases hb : buildItems (entryToItem findImg fetch_article feed url) (feed.entries.take 10) with
  | error u => simp [hb]
  | ok items =>
    simp only [hb]
    rw [buildItems_ok_length _ _ _ hb, List.length_take]
    exact min_le_left _ _

theorem parse_rss_some_get (feedparse : String → Option Feed)
    (findImg : String → Option ImgTag) (fetch_article : Option String → Option String)
    (url : String) (feed : Feed) (hf : feedparse url = some feed)
    (i : Nat) (it : RawItem)
    (hit : (parse_rss feedparse findImg fetch_article url)[i]? = some it) :
    ∃ e img, feed.entries[i]? = some e ∧
      _extract_image findImg fetch_article e url = .ok img ∧
      it = { title := e.title.getD ""
             link := e.link.getD ""
             description := e.summary.getD (e.description.getD "")
             published := e.published.getD ""
             image_url := img
             source := feed.title.getD "Неизвестный источник" } := by
  simp only [parse_rss, hf] at hit
  cases hb : buildItems (entryToItem findImg fetch_article feed url) (feed.entries.take 10) with
  | error u => simp [hb] at hit
  | ok items =>
    simp only [hb] at hit
    obtain ⟨e, he, hok⟩ := buildItems_ok_get _ _ _ hb i it hit
    obtain ⟨img, himg, hrec⟩ := entryToItem_ok _ _ _ _ _ _ hok
    refine ⟨e, img, ?_, himg, hrec⟩
    have hi10 : i < 10 := by
      have h1 : i < (feed.entries.take 10).length := by
        exact (List.getElem?_eq_some_iff.mp he).1
      have h2 := List.length_take 10 feed.entries
      omega
    rw [← List.getElem?_take_of_lt hi10]
    exact he

theorem pyTake_of_length_le (n : Nat) (s : String) (h : s.length ≤ n) : pyTake n s = s := by
  cases s with
  | mk data =>
    simp only [pyTake, String.length] at *
    rw [List.take_of_length_le h]

/-! ## Claim theorems -/

/-- C2: once `mark_as_published` succeeds (the write included), `is_duplicate`
is true for the same item both against the updated in-memory set and against
the set reloaded from the persisted file (`_save_published` then
`_load_published` preserves membership). -/
theorem claim2_mark_published_persists (h0 : List String) (f0 : FileState) (news : RawItem) :
    is_duplicate (mark_as_published true h0 f0 news).1 news = true ∧
    is_duplicate (_load_published (mark_as_published true h0 f0 news).2) news = true := by
  refine ⟨mark_contains_self true h0 f0 news, ?_⟩
  simpa [mark_as_published, _save_published, _load_published, is_duplicate] using
    setAdd_contains_self h0 (get_news_hash news)

/-- C3: the fingerprint is a function of the `(title, link)` pair only —
any two raw items with the same title and link (whatever their other
fields) get the same digest; determinism is immediate because
`get_news_hash` is a pure function of these two fields. -/
theorem claim3_fingerprint_depends_only_on_title_link (n1 n2 : RawItem)
    (ht : n1.title = n2.title) (hl : n1.link = n2.link) :
    get_news_hash n1 = get_news_hash n2 := by
  unfold get_news_hash
  rw [ht, hl]

/-- Witness for C3: two items equal in title and link but different in
description, published date, image and source share the fingerprint. -/
theorem claim3_witness :
    get_news_hash ⟨"Fiesta en Alicante", "https://x.es/1", "descA", "", none, "A"⟩ =
      get_news_hash ⟨"Fiesta en Alicante", "https://x.es/1", "descB", "hoy", some "i", "B"⟩ :=
  claim3_fingerprint_depends_only_on_title_link _ _ rfl rfl

/-- C4: `filter_news` returns exactly the input items that are non-duplicate,
non-spam and keyword-relevant (the three checks applied per item in that
order), in the input's relative order: it is `List.filter` of the
conjunction of the three checks. -/
theorem claim4_filter_news_exact (h : List String) (l : List RawItem) (kws : List String) :
    filter_news h l kws =
      l.filter (fun news => !is_duplicate h news && !is_spam news && keywordMatch kws news) :=
  filter_news_eq_filter h l kws

/-- C7: `translate_text` always hands the translation collaborator the input
truncated to at most 5000 characters, and when the collaborator raises
(`none`) it returns that truncated input unchanged instead of propagating
the failure — equivalently it is `getD` of the collaborator's answer over
the truncation. -/
theorem claim7_translate_truncates_and_falls_back (translator : String → Option String)
    (text : String) :
    translate_text translator text =
      (translator (pyTake 5000 text)).getD (pyTake 5000 text) := by
  unfold translate_text
  by_cases hlen : text.length > 5000
  · simp only [if_pos hlen]
    cases htr : translator (pyTake 5000 text) <;> simp [htr]
  · simp only [if_neg hlen]
    rw [pyTake_of_length_le 5000 text (by omega)]
    cases htr : translator text <;> simp [htr]

/-- C10: `mark_as_published` with a failing state-file write still returns
normally (it is a total function), leaves the file untouched (so the
fingerprint can be lost at the next restart), yet the fingerprint is in the
in-memory set and stays there through any sequence of later marks in the
same process lifetime. -/
theorem claim10_mark_swallows_write_failure (h0 : List String) (f0 : FileState)
    (news : RawItem) (later : List (Bool × RawItem)) :
    is_duplicate (mark_as_published false h0 f0 news).1 news = true ∧
    (mark_as_published false h0 f0 news).2 = f0 ∧
    is_duplicate (markMany (mark_as_published false h0 f0 news) later).1 news = true := by
  refine ⟨mark_contains_self false h0 f0 news, ?_, ?_⟩
  · simp [mark_as_published, _save_published]
  · exact markMany_contains_mono _ later _ (mark_contains_self false h0 f0 news)

/-- C1: an item whose fingerprint is already in the published set when a run
starts is excluded by the filter (so it never reaches the summarizer or the
publisher: the loop only sees the filter's output), and in particular is not
among the items the run publishes — the pipeline is idempotent for an
already-published item. -/
theorem claim1_duplicate_item_never_republished (feedparse : String → Option Feed)
    (findImg : String → Option ImgTag) (fetch_article : Option String → Option String)
    (clean_html : String → String) (translator : String → Option String)
    (sendPhoto : String → String → String → Bool) (sendMessage : String → String → Bool)
    (writeOk : Bool) (city : CityConfig) (h0 : List String) (f0 : FileState) (item : RawItem)
    (hd : is_duplicate h0 item = true) :
    item ∉ filter_news h0 (fetch_all_news feedparse findImg fetch_article city.sources)
        city.keywords ∧
    item ∉ (process_city_news feedparse findImg fetch_article clean_html translator
        sendPhoto sendMessage writeOk city h0 f0).1 := by
  have hnotf : ∀ (raw : List RawItem) (kws : List String), item ∉ filter_news h0 raw kws := by
    intro raw kws hmem
    have hfalse := (mem_filter_news h0 raw kws item hmem).2.1
    rw [hd] at hfalse
    cases hfalse
  refine ⟨hnotf _ _, ?_⟩
  intro hmem
  simp only [process_city_news] at hmem
  have h5 := publishLoop_trace_subset _ _ _ _ _ _ _ hmem
  exact hnotf _ _ (List.take_subset 5 _ h5)

/-- Witness for C1: a concrete already-published item, with trivial
collaborators, is neither in the filter output nor in the publish trace. -/
theorem claim1_witness :
    is_duplicate [get_news_hash ⟨"T", "https://x.es/1", "d", "", none, "s"⟩]
        ⟨"T", "https://x.es/1", "d", "", none, "s"⟩ = true ∧
    (⟨"T", "https://x.es/1", "d", "", none, "s"⟩ : RawItem) ∉
      filter_news [get_news_hash ⟨"T", "https://x.es/1", "d", "", none, "s"⟩]
        (fetch_all_news (fun _ => none) (fun _ => none) (fun _ => none) ["u"]) ["t"] ∧
    (⟨"T", "https://x.es/1", "d", "", none, "s"⟩ : RawItem) ∉
      (process_city_news (fun _ => none) (fun _ => none) (fun _ => none) (fun s => s)
        (fun _ => none) (fun _ _ _ => true) (fun _ _ => true) true ⟨"c", "ch", ["u"], ["t"]⟩
        [get_news_hash ⟨"T", "https://x.es/1", "d", "", none, "s"⟩] .absent).1 := by
  have hd : is_duplicate [get_news_hash ⟨"T", "https://x.es/1", "d", "", none, "s"⟩]
      ⟨"T", "https://x.es/1", "d", "", none, "s"⟩ = true := by
    simp [is_duplicate]
  have h := claim1_duplicate_item_never_republished (fun _ => none) (fun _ => none)
    (fun _ => none) (fun s => s) (fun _ => none) (fun _ _ _ => true) (fun _ _ => true) true
    ⟨"c", "ch", ["u"], ["t"]⟩ [get_news_hash ⟨"T", "https://x.es/1", "d", "", none, "s"⟩]
    .absent ⟨"T", "https://x.es/1", "d", "", none, "s"⟩ hd
  exact ⟨hd, h.1, h.2⟩

/-- C6: the summarizer rejects exactly when the description, after cleaning,
translation and 3-sentence truncation, has fewer than 20 characters (in
particular the title's length is irrelevant to rejection: when the short
description is long enough the result is `some`, whatever the title), and a
rejected item is never in the publish trace of the caller's loop. -/
theorem claim6_short_description_never_published (clean_html : String → String)
    (translator : String → Option String) (news : RawItem) (city_name : String) :
    (process_news clean_html translator news city_name = none ↔
      (shorten_text (translate_text translator (clean_html news.description)) 3).length < 20) ∧
    (process_news clean_html translator news city_name = none →
      ∀ (pub : ProcessedPost → Bool) (w : Bool) (l : List RawItem) (h : List String)
        (f : FileState),
        news ∉ (publishLoop (fun n => process_news clean_html translator n city_name)
          pub w l h f).1) := by
  constructor
  · unfold process_news
    by_cases hlen :
        (shorten_text (translate_text translator (clean_html news.description)) 3).length < 20
    · simp [hlen]
    · simp [hlen]
  · intro hnone pub w l h f hmem
    have hs := publishLoop_trace_proc_isSome _ _ _ _ _ _ _ hmem
    simp [hnone] at hs

/-- Witness for C6: a concrete item whose description shortens to fewer than
20 characters is rejected and absent from a concrete publish trace. -/
theorem claim6_witness :
    process_news (fun s => s) (fun s => some s) ⟨"T", "L", "Hola.", "", none, "S"⟩ "c" = none ∧
    (⟨"T", "L", "Hola.", "", none, "S"⟩ : RawItem) ∉
      (publishLoop (fun n => process_news (fun s => s) (fun s => some s) n "c")
        (fun _ => true) true [⟨"T", "L", "Hola.", "", none, "S"⟩] [] .absent).1 := by
  have h := claim6_short_description_never_published (fun s => s) (fun s => some s)
    ⟨"T", "L", "Hola.", "", none, "S"⟩ "c"
  have hnone := h.1.mpr (by decide)
  exact ⟨hnone, h.2 hnone _ _ _ _ _⟩

/-- C5: when a post has an image and the image+caption send raises, the same
invocation makes exactly one further attempt — a text-only send of the
identical rendered payload (no second image attempt) — and returns that
text-only outcome as its own; and when that fallback also fails, the caller's
loop state is exactly as if the item had been skipped, so the item is not
marked published. -/
theorem claim5_image_send_falls_back_to_text (sendPhoto : String → String → String → Bool)
    (sendMessage : String → String → Bool) (channel_id : String) (news : ProcessedPost)
    (img : String) (himg : news.image_url = some img) (hne : img ≠ "")
    (hfail : sendPhoto channel_id img (renderText news) = false) :
    publish_news sendPhoto sendMessage channel_id news =
      (sendMessage channel_id (renderText news),
       [SendAttempt.photo channel_id img (renderText news),
        SendAttempt.message channel_id (renderText news)]) ∧
    (sendMessage channel_id (renderText news) = false →
      ∀ (proc : RawItem → Option ProcessedPost) (w : Bool) (n : RawItem)
        (rest : List RawItem) (h : List String) (f : FileState),
        proc n = some news →
        publishLoop proc (fun p => (publish_news sendPhoto sendMessage channel_id p).1)
          w (n :: rest) h f =
        publishLoop proc (fun p => (publish_news sendPhoto sendMessage channel_id p).1)
          w rest h f) := by
  have heq : publish_news sendPhoto sendMessage channel_id news =
      (sendMessage channel_id (renderText news),
       [SendAttempt.photo channel_id img (renderText news),
        SendAttempt.message channel_id (renderText news)]) := by
    unfold publish_news
    simp [himg, optTruthy, hne, hfail]
  refine ⟨heq, ?_⟩
  intro hsm proc w n rest h f hpn
  refine publishLoop_cons_some_false proc _ w n rest h f news hpn ?_
  simp [heq, hsm]

/-- Witness for C5: a concrete post with an image whose photo send fails and
whose text fallback succeeds is published with exactly the two attempts and
overall success. -/
theorem claim5_witness :
    publish_news (fun _ _ _ => false) (fun _ _ => true) "ch"
        ⟨"T", "body", "L", some "http://img", ["#x"], "S"⟩ =
      (true,
       [SendAttempt.photo "ch" "http://img"
          (renderText ⟨"T", "body", "L", some "http://img", ["#x"], "S"⟩),
        SendAttempt.message "ch"
          (renderText ⟨"T", "body", "L", some "http://img", ["#x"], "S"⟩)]) := by
  have h := (claim5_image_send_falls_back_to_text (fun _ _ _ => false) (fun _ _ => true)
    "ch" ⟨"T", "body", "L", some "http://img", ["#x"], "S"⟩ "http://img" rfl
    (by decide) rfl).1
  exact h

/-- C8: `parse_rss` never raises — when the feed fetch/parse fails it returns
the empty list — and on success it returns at most the first 10 entries, in
feed order, each mapped to a `RawItem` whose missing title or description
(and link, published, source title) is replaced by its default. -/
theorem claim8_parse_rss_bounded_total (feedparse : String → Option Feed)
    (findImg : String → Option ImgTag) (fetch_article : Option String → Option String)
    (url : String) :
    (feedparse url = none → parse_rss feedparse findImg fetch_article url = []) ∧
    (∀ feed, feedparse url = some feed →
      (parse_rss feedparse findImg fetch_article url).length ≤ 10 ∧
      ∀ (i : Nat) (it : RawItem),
        (parse_rss feedparse findImg fetch_article url)[i]? = some it →
        ∃ e img, feed.entries[i]? = some e ∧
          _extract_image findImg fetch_article e url = .ok img ∧
          it = { title := e.title.getD ""
                 link := e.link.getD ""
                 description := e.summary.getD (e.description.getD "")
                 published := e.published.getD ""
                 image_url := img
                 source := feed.title.getD "Неизвестный источник" }) := by
  refine ⟨fun hn => by simp [parse_rss, hn], fun feed hf => ⟨?_, ?_⟩⟩
  · exact parse_rss_some_length feedparse findImg fetch_article url feed hf
  · intro i it hit
    exact parse_rss_some_get feedparse findImg fetch_article url feed hf i it hit

/-- Witness for C8: a concrete one-entry feed with missing title and
description maps to a single `RawItem` with empty-string defaults. -/
theorem claim8_witness :
    (parse_rss (fun _ => some ⟨none, [⟨none, some "https://x.es/1", none, none, none,
        none, none, none, none⟩]⟩) (fun _ => none) (fun _ => none) "u")[0]? =
      some ⟨"", "https://x.es/1", "", "", none, "Неизвестный источник"⟩ ∧
    ∃ e img,
      (⟨none, [⟨none, some "https://x.es/1", none, none, none, none, none, none, none⟩]⟩ :
        Feed).entries[0]? = some e ∧
      _extract_image (fun _ => none) (fun _ => none) e "u" = .ok img ∧
      (⟨"", "https://x.es/1", "", "", none, "Неизвестный источник"⟩ : RawItem) =
        { title := e.title.getD ""
          link := e.link.getD ""
          description := e.summary.getD (e.description.getD "")
          published := e.published.getD ""
          image_url := img
          source := (⟨none, [⟨none, some "https://x.es/1", none, none, none, none, none,
            none, none⟩]⟩ : Feed).title.getD "Неизвестный источник" } := by
  refine ⟨by decide, ?_⟩
  exact ((claim8_parse_rss_bounded_total (fun _ => some ⟨none, [⟨none, some "https://x.es/1",
    none, none, none, none, none, none, none⟩]⟩) (fun _ => none) (fun _ => none) "u").2
    _ rfl).2 0 _ (by decide)

/-- Counterexample to C9 as stated: with a feed served over `http`, a
protocol-relative `<img src="//cdn.x.es/a.jpg">` in the description is
resolved by strategy 4 to `https://cdn.x.es/a.jpg` — the hardcoded literal
scheme `https:`, not the feed's own scheme `http` (the result does not even
start with `http:` followed by `//`). -/
theorem claim9_counterexample :
    _extract_image (fun _ => some ⟨some "//cdn.x.es/a.jpg", none, none⟩) (fun _ => none)
      ⟨none, some "https://feeds.x.es/art1", some "<img src=\"//cdn.x.es/a.jpg\">",
        none, none, none, none, none, none⟩
      "http://feeds.x.es/rss" = .ok (some "https://cdn.x.es/a.jpg") ∧
    urlparse_scheme "http://feeds.x.es/rss" = "http" ∧
    pyStartsWith "http:" "https://cdn.x.es/a.jpg" = false := by
  refine ⟨?_, by decide, by decide⟩
  rfl

/-- C9 (amended): in strategy 4, a protocol-relative URL (starting `//`) is
absolutized by prefixing the literal scheme `https:` (keeping its own host,
independent of the feed's scheme), while a root-relative URL (starting `/`
but not `//`) is resolved with the feed URL's own scheme and host; in
particular `<img src="//cdn.x.es/a.jpg">` yields `https://cdn.x.es/a.jpg`. -/
theorem claim9_amended_strategy4_absolutize (findImg : String → Option ImgTag)
    (fetch_article : Option String → Option String) (entry : FeedEntry) (feed_url : String)
    (html : String) (img : ImgTag) (url : String)
    (h1 : entry.media_content = none) (h2 : entry.media_thumbnail = none)
    (h3 : entry.enclosures = none) (h4 : entry.summary = some html)
    (h5 : findImg html = some img) (h6 : img.src = some url) (h7 : url ≠ "") :
    (pyStartsWith "//" url = true →
      _extract_image findImg fetch_article entry feed_url = .ok (some ("https:" ++ url))) ∧
    (pyStartsWith "//" url = false → pyStartsWith "/" url = true →
      _extract_image findImg fetch_article entry feed_url =
        .ok (some (urlparse_scheme feed_url ++ "://" ++ urlparse_netloc feed_url ++ url))) := by
  have hext : _extract_image findImg fetch_article entry feed_url =
      .ok (some (absolutize feed_url url)) := by
    unfold _extract_image
    simp only [extractMethod1, extractMethod2, extractMethod3, extractMethod4, h1, h2, h3, h4,
      h5, h6, h7, firstTruthy, Bind.bind, Except.bind, Option.isSome_some, Bool.true_or,
      Option.getD_some, beq_iff_eq, if_neg h7, if_true]
    rfl
  constructor
  · intro hpp
    rw [hext]
    simp [absolutize, hpp]
  · intro hpp hroot
    rw [hext]
    simp [absolutize, hpp, hroot]

/-- Witness for C9 (amended): the spec's own example — a protocol-relative
`//cdn.x.es/a.jpg` in the description of an item from an `https` feed is
normalized to `https://cdn.x.es/a.jpg`. -/
theorem claim9_witness :
    _extract_image (fun _ => some ⟨some "//cdn.x.es/a.jpg", none, none⟩) (fun _ => none)
      ⟨none, some "https://www.x.es/art1", some "<img src=\"//cdn.x.es/a.jpg\">",
        none, none, none, none, none, none⟩
      "https://www.x.es/rss" = .ok (some "https://cdn.x.es/a.jpg") := by
  have h := (claim9_amended_strategy4_absolutize
    (fun _ => some ⟨some "//cdn.x.es/a.jpg", none, none⟩) (fun _ => none)
    ⟨none, some "https://www.x.es/art1", some "<img src=\"//cdn.x.es/a.jpg\">",
      none, none, none, none, none, none⟩
    "https://www.x.es/rss" "<img src=\"//cdn.x.es/a.jpg\">"
    ⟨some "//cdn.x.es/a.jpg", none, none⟩ "//cdn.x.es/a.jpg"
    rfl rfl rfl rfl rfl rfl (by decide)).1 (by decide)
  rw [h]
  rfl

/-- Sanity anchor for the MD5 embedding: the RFC 1321 test vector for the
empty message. -/
theorem md5hex_rfc1321_empty : md5hex "" = "d41d8cd98f00b204e9800998ecf8427e" := by
  decide

/-- Sanity anchor for the MD5 embedding: the RFC 1321 test vector for
`"abc"`. -/
theorem md5hex_rfc1321_abc : md5hex "abc" = "900150983cd24fb0d6963f7d28e17f72" := by
  decide
